import Mathlib

/-!
Verification of the smartqasa/scene_capture repository.

The repository contains two Home Assistant integrations:
  * `custom_components/scene_capture/__init__.py` — service `scene_capture.update`
  * `custom_components/smartqasa/__init__.py` — services `smartqasa.scene_get`
    and `smartqasa.scene_update`

Both capture live entity state into a scene record of `scenes.yaml`.
This file gives a shallow embedding of their data model and operations and
settles the frozen claims about the specification.
-/

namespace SceneCapture

/-- A Python runtime value, as handled by the two serializers and the scene
document. Lists, dicts and tuples are encoded by their own nil/cons
constructors (`lnil`/`lcons`, `dnil`/`dcons`, `tnil`/`tcons`) instead of a
nested `List PyVal`, so that equality is decidable and recursion is
structural; a Python list `[a, b]` is `lcons a (lcons b lnil)`.
`enumv v` models an `Enum` member (an object exposing a single underlying
scalar `value` attribute); `obj s` models any other opaque object whose
`str()` form is `s` (and which exposes no `value` attribute). Dictionary
keys in `scenes.yaml` and in Home Assistant attribute maps are strings. -/
inductive PyVal where
  | none
  | bool (b : Bool)
  | int (n : Int)
  | flt (q : Rat)
  | str (s : String)
  | lnil
  | lcons (hd tl : PyVal)
  | dnil
  | dcons (k : String) (v tl : PyVal)
  | tnil
  | tcons (hd tl : PyVal)
  | enumv (v : PyVal)
  | obj (s : String)
  deriving DecidableEq

/-- Python `str()` of a value. Scalar cases follow CPython exactly
(`str(None) = "None"`, `str(True) = "True"`, `str(3) = "3"`, a string is
itself); the container, enum and float renderings are abbreviated — no
claim evaluates `str()` on those shapes. -/
def pyStr : PyVal → String
  | .none => "None"
  | .bool b => if b then "True" else "False"
  | .int n => toString n
  | .flt q => toString q
  | .str s => s
  | .lnil | .lcons _ _ => "[...]"
  | .dnil | .dcons _ _ _ => "{...}"
  | .tnil | .tcons _ _ => "(...)"
  | .enumv _ => "<enum>"
  | .obj s => s

/-- `scene_capture.to_serializable` (scene_capture/__init__.py lines 25-37):
dicts and lists recurse; anything with a `value` attribute (enums) becomes
`str(data.value)`; int/float/str/bool/None pass through unchanged;
everything else (tuples included, which match none of the isinstance
checks) falls back to `str(data)`. -/
def to_serializable : PyVal → PyVal
  | .dnil => .dnil
  | .dcons k v t => .dcons k (to_serializable v) (to_serializable t)
  | .lnil => .lnil
  | .lcons h t => .lcons (to_serializable h) (to_serializable t)
  | .enumv v => .str (pyStr v)
  | .int n => .int n
  | .flt q => .flt q
  | .str s => .str s
  | .bool b => .bool b
  | .none => .none
  | .tnil => .str (pyStr .tnil)
  | .tcons h t => .str (pyStr (.tcons h t))
  | .obj s => .str s

/-- `smartqasa.make_serializable` (smartqasa/__init__.py lines 73-87):
an `Enum` reduces to `data.value` — returned as-is, not stringified;
str/int/float/bool/None pass through; dicts, lists and tuples recurse;
everything else falls back to `str(data)` with a warning. -/
def make_serializable : PyVal → PyVal
  | .enumv v => v
  | .str s => .str s
  | .int n => .int n
  | .flt q => .flt q
  | .bool b => .bool b
  | .none => .none
  | .dnil => .dnil
  | .dcons k v t => .dcons k (make_serializable v) (make_serializable t)
  | .lnil => .lnil
  | .lcons h t => .lcons (make_serializable h) (make_serializable t)
  | .tnil => .tnil
  | .tcons h t => .tcons (make_serializable h) (make_serializable t)
  | .obj s => .str s

/-! ## Dictionary and list primitives of the embedding -/

/-- Python `d.get(k)` on a dict-shaped value: the value at the first
occurrence of key `k`, if any (Python dict keys are unique, so first
occurrence is the occurrence). Returns `Option.none` on non-dict shapes;
call sites guard dict-ness where the Python code could raise instead. -/
def dictGet : PyVal → String → Option PyVal
  | .dcons k v t, key => if k = key then some v else dictGet t key
  | _, _ => Option.none

/-- Python `k in d` key-membership test on a dict-shaped value. -/
def dictHasKey (d : PyVal) (key : String) : Bool :=
  (dictGet d key).isSome

/-- Python `d[k] = v` on a dict-shaped value: replaces the value at an
existing key in place, otherwise appends the new key at the end
(Python insertion order). -/
def dictSet : PyVal → String → PyVal → PyVal
  | .dcons k v' t, key, v =>
      if k = key then .dcons k v t else .dcons k v' (dictSet t key v)
  | .dnil, key, v => .dcons key v .dnil
  | d, _, _ => d

/-- Python `isinstance(x, dict)` (shallow shape test on the embedding). -/
def isDict : PyVal → Bool
  | .dnil | .dcons _ _ _ => true
  | _ => false

/-- The keys of a dict-shaped value, in insertion order — what Python's
`for k in d` / `d.keys()` iterates. Non-dict shapes give `[]`; no claim
iterates a non-dict entities value. -/
def dKeys : PyVal → List String
  | .dcons k _ t => k :: dKeys t
  | _ => []

/-- View a list-shaped value as a Lean list of its elements;
`Option.none` for anything that is not a well-formed Python list. -/
def asList : PyVal → Option (List PyVal)
  | .lnil => some []
  | .lcons h t => (asList t).map (h :: ·)
  | _ => Option.none

/-- Build the list-shaped value with the given elements. -/
def ofList : List PyVal → PyVal
  | [] => .lnil
  | x :: xs => .lcons x (ofList xs)

theorem asList_ofList (rs : List PyVal) : asList (ofList rs) = some rs := by
  induction rs with
  | nil => rfl
  | cons x xs ih => simp [ofList, asList, ih]

/-- The number of records in a document value: the length of its list
shape, `0` when it is not a list. -/
def pyLen (d : PyVal) : Nat :=
  match asList d with
  | some rs => rs.length
  | Option.none => 0

/-! ## Home Assistant state objects -/

/-- A Home Assistant `State` object, as consumed by the two integrations:
its `.state` value (a string in practice, possibly `None` in the model —
the smartqasa retry loop explicitly tests `state.state is not None`) and
its `.attributes` mapping. -/
structure HState where
  state : PyVal
  attributes : PyVal
  deriving DecidableEq

/-! ## scene_capture: `handle_update` (scene_capture/__init__.py lines 43-106)

The service handler validates the scene entity, then under its lock reads
`scenes.yaml`, locates the record whose `id` equals the scene's `id`
attribute, rebuilds that record's `entities` map from the live states, and
writes the whole document back. The model below covers the locked
read-modify phase: input is the parsed document (after the `or []`
normalization) and the `hass.states` snapshot, output says what the
handler does. -/

/-- Outcome of scene_capture's locked update phase. `exn` marks a Python
exception escaping the handler (`s.get` on a non-dict record raises
`AttributeError`, and no `try` encloses the record scan). -/
inductive ScResult where
  | notAList
  | notFound
  | exn
  | wrote (doc : PyVal)
  deriving DecidableEq

/-- The fresh `updated_entities` dict of scene_capture (lines 74-90): one
entry per listed entity that is present in the states snapshot, in listing
order; missing entities are skipped with a warning. Each entry is
`to_serializable(state.attributes)` with `"state"` set to
`str(state.state)`. -/
def sc_updatedEntities (states : String → Option HState) : List String → PyVal
  | [] => .dnil
  | e :: rest =>
      match states e with
      | some st =>
          .dcons e (dictSet (to_serializable st.attributes) "state" (.str (pyStr st.state)))
            (sc_updatedEntities states rest)
      | Option.none => sc_updatedEntities states rest

/-- The in-place mutation of the matched record (lines 74-92):
`target_scene["entities"] = updated_entities`, where the listed entities
are the keys of `target_scene.get("entities", {})`. -/
def sc_mutate (states : String → Option HState) (r : PyVal) : PyVal :=
  dictSet r "entities" (sc_updatedEntities states (dKeys ((dictGet r "entities").getD .dnil)))

/-- Result of the record scan at the list level. -/
inductive ScanRes where
  | notFound
  | exn
  | wrote (rs : List PyVal)
  deriving DecidableEq

/-- Scan of `next((s for s in scenes_config if s.get("id") == scene_id), None)`
(line 68) combined with the subsequent in-place mutation: Python stops at
the first matching record, so later records are never inspected; a
non-dict record reached before a match raises (`s.get` is an
`AttributeError` there). -/
def sc_scan (scene_id : PyVal) (states : String → Option HState) :
    List PyVal → ScanRes
  | [] => .notFound
  | r :: rest =>
      if isDict r then
        if (dictGet r "id").getD .none = scene_id then
          .wrote (sc_mutate states r :: rest)
        else
          match sc_scan scene_id states rest with
          | .wrote rs => .wrote (r :: rs)
          | .notFound => .notFound
          | .exn => .exn
      else .exn

/-- scene_capture's locked update phase (lines 57-92 plus the write of the
full document): `scene_id` is the scene's `id` attribute, `states` the
`hass.states.async_all()` snapshot taken at line 73, `doc` the parsed
`scenes.yaml` content after the `or []` normalization. -/
def sc_handle_update (scene_id : PyVal) (states : String → Option HState)
    (doc : PyVal) : ScResult :=
  match asList doc with
  | Option.none => .notAList
  | some rs =>
      match sc_scan scene_id states rs with
      | .wrote rs' => .wrote (ofList rs')
      | .notFound => .notFound
      | .exn => .exn

/-! ## smartqasa: entity state resolver (smartqasa/__init__.py lines 202-214)

For each entity the loop makes up to `max_attempts = 3` calls to
`hass.states.get`; an attempt succeeds when `state and state.state is not
None`. After a failed attempt the loop sleeps `0.25 * 2 ** attempt`
seconds — except after the last attempt, where it warns and breaks
without sleeping. Delays are modelled in milliseconds. -/

/-- Python truthiness/availability test `state and state.state is not None`. -/
def stOk : Option HState → Bool
  | some st => st.state ≠ PyVal.none
  | Option.none => false

/-- The resolver loop, unrolled from `for attempt in range(3)`: `tries n`
is what the `n`-th `hass.states.get` call returns. Result: the final value
of the `state` variable, the number of `hass.states.get` calls made, and
the list of sleep delays performed (milliseconds). -/
def sq_resolve (tries : Nat → Option HState) : Option HState × Nat × List Nat :=
  if stOk (tries 0) then (tries 0, 1, [])
  else if stOk (tries 1) then (tries 1, 2, [250])
  else (tries 2, 3, [250, 500])

/-- Map a function over the values of a dict-shaped value, keeping keys:
`{k: make_serializable(v) for k, v in state.attributes.items()}`. -/
def mapDictVals (f : PyVal → PyVal) : PyVal → PyVal
  | .dcons k v t => .dcons k (f v) (mapDictVals f t)
  | d => d

/-- The attribute map smartqasa stores for a resolved entity
(lines 216-223): a value-wise `make_serializable` of `state.attributes`
when that is a dict (else `{}`), with `"state"` set to `str(state.state)`. -/
def sq_attrs (st : HState) : PyVal :=
  dictSet (if isDict st.attributes then mapDictVals make_serializable st.attributes else .dnil)
    "state" (.str (pyStr st.state))

/-- The entity loop of `update_scene_states` (lines 201-223):
`updated_entities` starts as a copy of the scene's existing entity map and
is only overwritten at entities whose final `state` variable is truthy
(i.e. the resolver returned an object — even one whose `.state` is None).
`states e` gives the successive `hass.states.get` results for entity `e`. -/
def sq_entityFold (states : String → Nat → Option HState) :
    List String → PyVal → PyVal
  | [], acc => acc
  | e :: rest, acc =>
      match (sq_resolve (states e)).1 with
      | some st => sq_entityFold states rest (dictSet acc e (sq_attrs st))
      | Option.none => sq_entityFold states rest acc

/-! ## smartqasa: `retrieve_scene` (lines 92-127) -/

/-- Outcome of `retrieve_scene`: `invalid`/`noId` are the early validation
returns `(None, None)`; `noScene sid` is every `(scene_id, None)` return
(file missing, malformed document, or id not present); `found sid target`
is the success return; `exn` marks `scene.get` raising on a non-dict
record (the scan is inside the lock but not inside the `try`). -/
inductive RetRes where
  | invalid
  | noId
  | noScene (sid : PyVal)
  | found (sid target : PyVal)
  | exn
  deriving DecidableEq

/-- The record scan of line 122: first record whose `scene.get("id")`
equals `scene_id`. -/
def sq_findScene (sid : PyVal) : List PyVal → RetRes
  | [] => .noScene sid
  | r :: rest =>
      if isDict r then
        if (dictGet r "id").getD .none = sid then .found sid r
        else sq_findScene sid rest
      else .exn

/-- Python `entity_id.startswith("scene.")`, as a structural prefix test
on the character lists of the two strings. -/
def strStartsWith (s pre : String) : Bool :=
  pre.data.isPrefixOf s.data

/-- `retrieve_scene(hass, entity_id)`: validates the entity id, reads the
scene's `id` attribute from `hass.states`, then under `CAPTURE_LOCK` loads
and scans the document. `hassState` is `hass.states.get(entity_id)`;
`doc` is the parsed `scenes.yaml` (`Option.none` for a missing file —
the service schema already guarantees `entity_id` is a string). -/
def sq_retrieve_scene (entity_id : String) (hassState : Option HState)
    (doc : Option PyVal) : RetRes :=
  if ¬ strStartsWith entity_id "scene." then .invalid
  else
    match hassState with
    | Option.none => .noId
    | some st =>
        match dictGet st.attributes "id" with
        | Option.none => .noId
        | some sid =>
            match doc with
            | Option.none => .noScene sid
            | some v =>
                match asList v with
                | Option.none => .noScene sid
                | some rs => sq_findScene sid rs

/-! ## smartqasa: `update_scene_states` (lines 173-243, read-modify phase) -/

/-- The per-record validation of lines 185-187: each scene must be a dict
with `id` and `entities` keys. -/
def sqRecordOk (r : PyVal) : Bool :=
  isDict r && dictHasKey r "id" && dictHasKey r "entities"

/-- The replacement loop of lines 196-199: the first record whose
`scene["id"]` equals `scene_id` is replaced (records are already validated
to be dicts carrying `id`); no match leaves the list unchanged. -/
def sq_replaceFirst (sid : PyVal) (newRec : PyVal) : List PyVal → List PyVal
  | [] => []
  | r :: rest =>
      if (dictGet r "id").getD .none = sid then newRec :: rest
      else r :: sq_replaceFirst sid newRec rest

/-- Outcome of the locked read-modify phase of `update_scene_states`:
`loadFail` is the `except Exception` return of line 191-193 (malformed
document — logged, nothing written); `wrote doc` says the phase reached
the persist step with document `doc`. No constructor raises: every
exception in this phase is caught. -/
inductive SqUpdRes where
  | loadFail
  | wrote (doc : PyVal)
  deriving DecidableEq

/-- Lines 196-225 on an already-validated record list: replace the first
record matching `scene_id` with `target_scene`, rebuild the entity map
from the live states, and set it on `target_scene` — an in-place mutation,
so it is visible at the replaced position of the list (when a match
existed; with no match the list is written back as read). -/
def sq_updateCore (scene_id target : PyVal)
    (states : String → Nat → Option HState) (rs : List PyVal) : SqUpdRes :=
  let ents := (dictGet target "entities").getD .dnil
  let updated := sq_entityFold states (dKeys ents) ents
  .wrote (ofList (sq_replaceFirst scene_id (dictSet target "entities" updated) rs))

/-- `update_scene_states(hass, scene_id, target_scene)` up to the persist
step. `doc2` is the freshly parsed `scenes.yaml` of line 180-182
(`Option.none` for a missing file, which becomes an empty config with a
warning). The matched record is replaced by `target_scene` (line 198) and
the subsequent in-place `target_scene["entities"] = updated_entities`
(line 225) is visible through that same object. -/
def sq_update_scene_states (scene_id target : PyVal)
    (states : String → Nat → Option HState) (doc2 : Option PyVal) : SqUpdRes :=
  match doc2 with
  | Option.none => sq_updateCore scene_id target states []
  | some v =>
      match asList v with
      | Option.none => .loadFail
      | some rs =>
          if rs.all sqRecordOk then sq_updateCore scene_id target states rs
          else .loadFail

/-! ## smartqasa: service handlers (lines 136-155) -/

/-- What `handle_scene_update` does with the document: nothing at all
(`noWrite`, when `retrieve_scene` produced no target scene — line 151-153),
or whatever `update_scene_states` does. -/
inductive SqHandleRes where
  | noWrite
  | updated (r : SqUpdRes)
  | exn
  deriving DecidableEq

/-- `handle_scene_update` (lines 147-155): retrieve the scene, abort with
an error log when it is not found, otherwise run `update_scene_states`.
`doc` is the parse of `scenes.yaml` at the retrieve step, `doc2` its parse
at the update step (the lock is released in between, so they may differ). -/
def sq_handle_scene_update (entity_id : String) (hassState : Option HState)
    (doc : Option PyVal) (states : String → Nat → Option HState)
    (doc2 : Option PyVal) : SqHandleRes :=
  match sq_retrieve_scene entity_id hassState doc with
  | .found sid target => .updated (sq_update_scene_states sid target states doc2)
  | .exn => .exn
  | _ => .noWrite

/-- The response of `handle_scene_get` (lines 136-145): on success the dict
`{"entities": [...keys...]}`; when no target scene was retrieved, the
Python *set* literal `{f"Scene not found for entity {entity_id}"}` — a
collection carrying the informal message string. -/
inductive GetRes where
  | respEntities (entities : List String)
  | respSet (msg : String)
  | exn
  deriving DecidableEq

/-- `handle_scene_get` (lines 136-145). -/
def sq_handle_scene_get (entity_id : String) (hassState : Option HState)
    (doc : Option PyVal) : GetRes :=
  match sq_retrieve_scene entity_id hassState doc with
  | .found _ target => .respEntities (dKeys ((dictGet target "entities").getD .dnil))
  | .exn => .exn
  | _ => .respSet ("Scene not found for entity " ++ entity_id)

/-! ## The persist steps

smartqasa (lines 227-243): dump the whole config, reject empty output,
create a named temporary file in the config directory, write the dump to
it, `os.replace` it over `scenes.yaml`, call the scene reload service;
on any exception, remove the temporary file if it still exists.

scene_capture (lines 94-106): dump the whole config and write it directly
to `scenes.yaml` opened with mode `"w"` (which truncates the target
immediately); on any exception just log. No temporary file is involved. -/

/-- Content of a file on disk, abstracted to which document it serializes:
`whole d` is a complete `yaml.safe_dump` of `d`; `truncated d` is a proper
prefix of one — the state a direct `"w"`-mode write leaves behind when it
fails partway (not valid YAML for the document). -/
inductive FileData where
  | whole (d : PyVal)
  | truncated (d : PyVal)
  deriving DecidableEq

/-- The files a persist step touches: the target `scenes.yaml` and the
`scenes_*.tmp` temporary file (`Option.none` = the file does not exist). -/
structure Fs where
  target : Option FileData
  temp : Option FileData
  deriving DecidableEq

/-- Observable outcome of one persist invocation: the final file states,
whether a temporary file was ever created, and whether the success path
(reload + success log) completed. -/
structure PersistOut where
  fs : Fs
  usedTemp : Bool
  ok : Bool
  deriving DecidableEq

/-- Failure scenarios of smartqasa's persist step, by program point. -/
inductive SqFail where
  | noFail
  | dumpFail       -- `yaml.safe_dump` raises, or the empty-output check fires (line 230-231)
  | tempCreateFail -- `NamedTemporaryFile` raises; `temp_file` is still None
  | tempWriteFail  -- writing the temporary file raises (temp exists)
  | renameFail     -- `os.replace` raises (temp exists)
  | reloadFail     -- the scene reload service call raises (after the rename)
  deriving DecidableEq

/-- smartqasa's persist step (lines 227-243) on document `doc` over file
state `fs0`, under failure scenario `fail`. The `except` block removes the
temporary file when it still exists; after a successful `os.replace` it no
longer does. -/
def sq_persist (doc : PyVal) (fs0 : Fs) (fail : SqFail) : PersistOut :=
  match fail with
  | .noFail => ⟨⟨some (.whole doc), Option.none⟩, true, true⟩
  | .dumpFail => ⟨fs0, false, false⟩
  | .tempCreateFail => ⟨fs0, false, false⟩
  | .tempWriteFail => ⟨⟨fs0.target, Option.none⟩, true, false⟩
  | .renameFail => ⟨⟨fs0.target, Option.none⟩, true, false⟩
  | .reloadFail => ⟨⟨some (.whole doc), Option.none⟩, true, false⟩

/-- Failure scenarios of scene_capture's persist step. -/
inductive ScFail where
  | noFail
  | dumpFail   -- `yaml.safe_dump` raises before the file is opened
  | openFail   -- `aiofiles.open(scenes_file, "w")` raises; target untouched
  | writeFail  -- the write raises after `"w"` already truncated the target
  deriving DecidableEq

/-- scene_capture's persist step (lines 94-106) on document `doc` over
file state `fs0`, under failure scenario `fail`: a direct write to the
target, no temporary file, no rename; a failure partway through the write
leaves a truncated target. -/
def sc_persist (doc : PyVal) (fs0 : Fs) (fail : ScFail) : PersistOut :=
  match fail with
  | .noFail => ⟨⟨some (.whole doc), fs0.temp⟩, false, true⟩
  | .dumpFail => ⟨fs0, false, false⟩
  | .openFail => ⟨fs0, false, false⟩
  | .writeFail => ⟨⟨some (.truncated doc), fs0.temp⟩, false, false⟩

/-! ## Concurrency model (C2)

Both integrations guard every document access with a single
mutual-exclusion lock: scene_capture's `handle_update` body runs inside
`async with lock` (one `lock` per `async_setup`, lines 41, 57), and
smartqasa's `update_scene_states` read-modify-write runs inside
`async with CAPTURE_LOCK` (module-level, lines 52, 178). A writer is
modelled as: acquire, read+compute, write (two halves — a file written
without the lock could be observed torn between them), release. The file
is two "halves" `fA`/`fB`, each remembering which serialized document it
came from; the file is syntactically valid iff both halves come from the
same document. -/

/-- The document transformation of one scene_capture `handle_update` call:
`some d'` when the handler writes `d'`, `Option.none` when it does not
write (document not a list, scene not found, or an escaped exception). -/
def scDocUpd (sid : PyVal) (states : String → Option HState) (d : PyVal) :
    Option PyVal :=
  match sc_handle_update sid states d with
  | .wrote d' => some d'
  | _ => Option.none

/-- The document transformation of one smartqasa `update_scene_states`
call reading document `d`: `some d'` when the persist step is reached with
`d'`, `Option.none` when the malformed-document path returns early. -/
def sqDocUpd (sid target : PyVal) (states : String → Nat → Option HState)
    (d : PyVal) : Option PyVal :=
  match sq_update_scene_states sid target states (some d) with
  | .wrote d' => some d'
  | .loadFail => Option.none

/-- A document transformation never shrinks (in fact preserves) the record
count of the document it writes. -/
def LenPres (u : PyVal → Option PyVal) : Prop :=
  ∀ d d', u d = some d' → pyLen d' = pyLen d

theorem sc_scan_length (sid : PyVal) (states : String → Option HState) :
    ∀ rs rs', sc_scan sid states rs = .wrote rs' → rs'.length = rs.length := by
  intro rs
  induction rs with
  | nil => intro rs' h; simp [sc_scan] at h
  | cons r rest ih =>
      intro rs' h
      simp only [sc_scan] at h
      by_cases hd : isDict r = true
      · simp [hd] at h
        by_cases hid : (dictGet r "id").getD .none = sid
        · simp [hid] at h
          subst h; simp
        · simp [hid] at h
          cases hscan : sc_scan sid states rest with
          | notFound => rw [hscan] at h; simp at h
          | exn => rw [hscan] at h; simp at h
          | wrote rs'' =>
              rw [hscan] at h; simp at h
              subst h; simpa using ih rs'' hscan
      · simp [hd] at h

theorem sq_replaceFirst_length (sid newRec : PyVal) (rs : List PyVal) :
    (sq_replaceFirst sid newRec rs).length = rs.length := by
  induction rs with
  | nil => rfl
  | cons r rest ih =>
      simp only [sq_replaceFirst]
      by_cases h : (dictGet r "id").getD .none = sid <;> simp [h, ih]

theorem pyLen_ofList (rs : List PyVal) : pyLen (ofList rs) = rs.length := by
  simp [pyLen, asList_ofList]

theorem scDocUpd_lenPres (sid : PyVal) (states : String → Option HState) :
    LenPres (scDocUpd sid states) := by
  intro d d' h
  cases hl : asList d with
  | none => simp [scDocUpd, sc_handle_update, hl] at h
  | some rs =>
      cases hs : sc_scan sid states rs with
      | notFound => simp [scDocUpd, sc_handle_update, hl, hs] at h
      | exn => simp [scDocUpd, sc_handle_update, hl, hs] at h
      | wrote rs' =>
          simp [scDocUpd, sc_handle_update, hl, hs] at h
          subst h
          rw [pyLen_ofList, sc_scan_length sid states rs rs' hs]
          simp [pyLen, hl]

theorem sqDocUpd_lenPres (sid target : PyVal)
    (states : String → Nat → Option HState) :
    LenPres (sqDocUpd sid target states) := by
  intro d d' h
  cases hl : asList d with
  | none => simp [sqDocUpd, sq_update_scene_states, hl] at h
  | some rs =>
      cases hok : rs.all sqRecordOk with
      | true =>
          simp only [sqDocUpd, sq_update_scene_states, sq_updateCore, hl] at h
          rw [if_pos hok] at h
          simp at h
          subst h
          rw [pyLen_ofList, sq_replaceFirst_length]
          simp [pyLen, hl]
      | false =>
          simp only [sqDocUpd, sq_update_scene_states, hl] at h
          rw [if_neg (by simp [hok])] at h
          simp at h

/-- A configuration of the two-writer system: the lock (`some false` =
writer 1 holds it, `some true` = writer 2), the two file halves, and each
writer's program counter and computed write buffer. Program counters:
0 waiting, 1 holding the lock, 2 read done, 3 first half written,
4 write finished (or skipped), 5 released/done. -/
structure Conf where
  lock : Option Bool
  fA : PyVal
  fB : PyVal
  pc1 : Nat
  buf1 : Option PyVal
  pc2 : Nat
  buf2 : Option PyVal
  deriving DecidableEq

/-- One atomic step of the two-writer system with update functions `u1`,
`u2`. Every file access happens strictly between `acquire` and `release`
of the one lock — the transcription of `async with lock:` /
`async with CAPTURE_LOCK:` around the read-modify-write bodies. -/
inductive Step (u1 u2 : PyVal → Option PyVal) : Conf → Conf → Prop where
  | acquire1 (c : Conf) (hl : c.lock = Option.none) (hp : c.pc1 = 0) :
      Step u1 u2 c { c with lock := some false, pc1 := 1 }
  | read1 (c : Conf) (hl : c.lock = some false) (hp : c.pc1 = 1)
      (hf : c.fA = c.fB) :
      Step u1 u2 c { c with buf1 := u1 c.fA, pc1 := 2 }
  | wstart1 (c : Conf) (d : PyVal) (hl : c.lock = some false) (hp : c.pc1 = 2)
      (hb : c.buf1 = some d) :
      Step u1 u2 c { c with fA := d, pc1 := 3 }
  | wfin1 (c : Conf) (d : PyVal) (hl : c.lock = some false) (hp : c.pc1 = 3)
      (hb : c.buf1 = some d) :
      Step u1 u2 c { c with fB := d, pc1 := 4 }
  | skip1 (c : Conf) (hl : c.lock = some false) (hp : c.pc1 = 2)
      (hb : c.buf1 = Option.none) :
      Step u1 u2 c { c with pc1 := 4 }
  | release1 (c : Conf) (hl : c.lock = some false) (hp : c.pc1 = 4) :
      Step u1 u2 c { c with lock := Option.none, pc1 := 5 }
  | acquire2 (c : Conf) (hl : c.lock = Option.none) (hp : c.pc2 = 0) :
      Step u1 u2 c { c with lock := some true, pc2 := 1 }
  | read2 (c : Conf) (hl : c.lock = some true) (hp : c.pc2 = 1)
      (hf : c.fA = c.fB) :
      Step u1 u2 c { c with buf2 := u2 c.fA, pc2 := 2 }
  | wstart2 (c : Conf) (d : PyVal) (hl : c.lock = some true) (hp : c.pc2 = 2)
      (hb : c.buf2 = some d) :
      Step u1 u2 c { c with fA := d, pc2 := 3 }
  | wfin2 (c : Conf) (d : PyVal) (hl : c.lock = some true) (hp : c.pc2 = 3)
      (hb : c.buf2 = some d) :
      Step u1 u2 c { c with fB := d, pc2 := 4 }
  | skip2 (c : Conf) (hl : c.lock = some true) (hp : c.pc2 = 2)
      (hb : c.buf2 = Option.none) :
      Step u1 u2 c { c with pc2 := 4 }
  | release2 (c : Conf) (hl : c.lock = some true) (hp : c.pc2 = 4) :
      Step u1 u2 c { c with lock := Option.none, pc2 := 5 }

/-- All interleaved executions. -/
def Reach (u1 u2 : PyVal → Option PyVal) : Conf → Conf → Prop :=
  Relation.ReflTransGen (Step u1 u2)

/-- The initial configuration over document `d0`: file whole, lock free,
both writers waiting. -/
def init (d0 : PyVal) : Conf :=
  ⟨Option.none, d0, d0, 0, Option.none, 0, Option.none⟩

/-- What holds of the writer owning the lock: the second file half still
has at least the initial record count, and the writer is at one of the
in-lock program points with the matching file/buffer facts. -/
def Hold (u : PyVal → Option PyVal) (n0 : Nat) (pc : Nat) (buf : Option PyVal)
    (fA fB : PyVal) : Prop :=
  n0 ≤ pyLen fB ∧
  ((pc = 1 ∧ fA = fB) ∨
   (pc = 2 ∧ fA = fB ∧ buf = u fA) ∨
   (pc = 3 ∧ ∃ d, buf = some d ∧ fA = d ∧ n0 ≤ pyLen d) ∨
   (pc = 4 ∧ fA = fB ∧ n0 ≤ pyLen fA))

/-- The global invariant of the two-writer system, phrased as one clause
per lock state. -/
def Inv (u1 u2 : PyVal → Option PyVal) (n0 : Nat) (c : Conf) : Prop :=
  (c.lock = Option.none →
    c.fA = c.fB ∧ n0 ≤ pyLen c.fA ∧
    (c.pc1 = 0 ∨ c.pc1 = 5) ∧ (c.pc2 = 0 ∨ c.pc2 = 5)) ∧
  (c.lock = some false →
    Hold u1 n0 c.pc1 c.buf1 c.fA c.fB ∧ (c.pc2 = 0 ∨ c.pc2 = 5)) ∧
  (c.lock = some true →
    Hold u2 n0 c.pc2 c.buf2 c.fA c.fB ∧ (c.pc1 = 0 ∨ c.pc1 = 5))

theorem inv_init (u1 u2 : PyVal → Option PyVal) (d0 : PyVal) :
    Inv u1 u2 (pyLen d0) (init d0) := by
  refine ⟨fun _ => ?_, fun hlk => by simp [init] at hlk,
    fun hlk => by simp [init] at hlk⟩
  simp [init]

theorem inv_step (u1 u2 : PyVal → Option PyVal) (h1 : LenPres u1)
    (h2 : LenPres u2) (n0 : Nat) (c c' : Conf) (hs : Step u1 u2 c c')
    (hinv : Inv u1 u2 n0 c) : Inv u1 u2 n0 c' := by
  obtain ⟨hN, hF, hT⟩ := hinv
  cases hs with
  | acquire1 hl hp =>
      obtain ⟨hab, hla, hq1, hq2⟩ := hN hl
      refine ⟨fun hlk => by simp at hlk, fun _ => ?_, fun hlk => by simp at hlk⟩
      exact ⟨⟨hla.trans_eq (congrArg pyLen hab), Or.inl ⟨rfl, hab⟩⟩, hq2⟩
  | read1 hl hp hf =>
      obtain ⟨⟨hfb, _⟩, hq⟩ := hF hl
      refine ⟨fun hlk => by simp [hl] at hlk, fun _ => ?_,
        fun hlk => by simp [hl] at hlk⟩
      exact ⟨⟨hfb, Or.inr (Or.inl ⟨rfl, hf, rfl⟩)⟩, hq⟩
  | wstart1 d hl hp hb =>
      obtain ⟨⟨hfb, hcase⟩, hq⟩ := hF hl
      refine ⟨fun hlk => by simp [hl] at hlk, fun _ => ?_,
        fun hlk => by simp [hl] at hlk⟩
      rcases hcase with ⟨hc, _⟩ | ⟨_, hfab, hbuf⟩ | ⟨hc, _⟩ | ⟨hc, _⟩
      · omega
      · refine ⟨⟨hfb, Or.inr (Or.inr (Or.inl ⟨rfl, d, hb, rfl, ?_⟩))⟩, hq⟩
        rw [h1 c.fA d (hbuf.symm.trans hb), hfab]
        exact hfb
      · omega
      · omega
  | wfin1 d hl hp hb =>
      obtain ⟨⟨hfb, hcase⟩, hq⟩ := hF hl
      refine ⟨fun hlk => by simp [hl] at hlk, fun _ => ?_,
        fun hlk => by simp [hl] at hlk⟩
      rcases hcase with ⟨hc, _⟩ | ⟨hc, _⟩ | ⟨_, d', hb', hfa, hld⟩ | ⟨hc, _⟩
      · omega
      · omega
      · have hdd : d' = d := Option.some.inj (hb'.symm.trans hb)
        subst hdd
        refine ⟨⟨hld, Or.inr (Or.inr (Or.inr ⟨rfl, hfa, ?_⟩))⟩, hq⟩
        rw [hfa]
        exact hld
      · omega
  | skip1 hl hp hb =>
      obtain ⟨⟨hfb, hcase⟩, hq⟩ := hF hl
      refine ⟨fun hlk => by simp [hl] at hlk, fun _ => ?_,
        fun hlk => by simp [hl] at hlk⟩
      rcases hcase with ⟨hc, _⟩ | ⟨_, hfab, _⟩ | ⟨hc, _⟩ | ⟨hc, _⟩
      · omega
      · refine ⟨⟨hfb, Or.inr (Or.inr (Or.inr ⟨rfl, hfab, ?_⟩))⟩, hq⟩
        rw [hfab]
        exact hfb
      · omega
      · omega
  | release1 hl hp =>
      obtain ⟨⟨hfb, hcase⟩, hq⟩ := hF hl
      refine ⟨fun _ => ?_, fun hlk => by simp at hlk, fun hlk => by simp at hlk⟩
      rcases hcase with ⟨hc, _⟩ | ⟨hc, _⟩ | ⟨hc, _⟩ | ⟨_, hfab, hla⟩
      · omega
      · omega
      · omega
      · exact ⟨hfab, hla, Or.inr rfl, hq⟩
  | acquire2 hl hp =>
      obtain ⟨hab, hla, hq1, hq2⟩ := hN hl
      refine ⟨fun hlk => by simp at hlk, fun hlk => by simp at hlk, fun _ => ?_⟩
      exact ⟨⟨hla.trans_eq (congrArg pyLen hab), Or.inl ⟨rfl, hab⟩⟩, hq1⟩
  | read2 hl hp hf =>
      obtain ⟨⟨hfb, _⟩, hq⟩ := hT hl
      refine ⟨fun hlk => by simp [hl] at hlk, fun hlk => by simp [hl] at hlk,
        fun _ => ?_⟩
      exact ⟨⟨hfb, Or.inr (Or.inl ⟨rfl, hf, rfl⟩)⟩, hq⟩
  | wstart2 d hl hp hb =>
      obtain ⟨⟨hfb, hcase⟩, hq⟩ := hT hl
      refine ⟨fun hlk => by simp [hl] at hlk, fun hlk => by simp [hl] at hlk,
        fun _ => ?_⟩
      rcases hcase with ⟨hc, _⟩ | ⟨_, hfab, hbuf⟩ | ⟨hc, _⟩ | ⟨hc, _⟩
      · omega
      · refine ⟨⟨hfb, Or.inr (Or.inr (Or.inl ⟨rfl, d, hb, rfl, ?_⟩))⟩, hq⟩
        rw [h2 c.fA d (hbuf.symm.trans hb), hfab]
        exact hfb
      · omega
      · omega
  | wfin2 d hl hp hb =>
      obtain ⟨⟨hfb, hcase⟩, hq⟩ := hT hl
      refine ⟨fun hlk => by simp [hl] at hlk, fun hlk => by simp [hl] at hlk,
        fun _ => ?_⟩
      rcases hcase with ⟨hc, _⟩ | ⟨hc, _⟩ | ⟨_, d', hb', hfa, hld⟩ | ⟨hc, _⟩
      · omega
      · omega
      · have hdd : d' = d := Option.some.inj (hb'.symm.trans hb)
        subst hdd
        refine ⟨⟨hld, Or.inr (Or.inr (Or.inr ⟨rfl, hfa, ?_⟩))⟩, hq⟩
        rw [hfa]
        exact hld
      · omega
  | skip2 hl hp hb =>
      obtain ⟨⟨hfb, hcase⟩, hq⟩ := hT hl
      refine ⟨fun hlk => by simp [hl] at hlk, fun hlk => by simp [hl] at hlk,
        fun _ => ?_⟩
      rcases hcase with ⟨hc, _⟩ | ⟨_, hfab, _⟩ | ⟨hc, _⟩ | ⟨hc, _⟩
      · omega
      · refine ⟨⟨hfb, Or.inr (Or.inr (Or.inr ⟨rfl, hfab, ?_⟩))⟩, hq⟩
        rw [hfab]
        exact hfb
      · omega
      · omega
  | release2 hl hp =>
      obtain ⟨⟨hfb, hcase⟩, hq⟩ := hT hl
      refine ⟨fun _ => ?_, fun hlk => by simp at hlk, fun hlk => by simp at hlk⟩
      rcases hcase with ⟨hc, _⟩ | ⟨hc, _⟩ | ⟨hc, _⟩ | ⟨_, hfab, hla⟩
      · omega
      · omega
      · omega
      · exact ⟨hfab, hla, hq, Or.inr rfl⟩

theorem inv_reach (u1 u2 : PyVal → Option PyVal) (h1 : LenPres u1)
    (h2 : LenPres u2) (d0 : PyVal) (c : Conf)
    (hr : Reach u1 u2 (init d0) c) : Inv u1 u2 (pyLen d0) c := by
  induction hr with
  | refl => exact inv_init u1 u2 d0
  | tail _ hstep ih => exact inv_step u1 u2 h1 h2 _ _ _ hstep ih

/-- Any lock-respecting interleaving that runs both writers to completion
leaves the file syntactically valid (both halves from the same document)
with at least the initial number of records. -/
theorem serialized_run (u1 u2 : PyVal → Option PyVal) (h1 : LenPres u1)
    (h2 : LenPres u2) (d0 : PyVal) (c : Conf)
    (hr : Reach u1 u2 (init d0) c) (hp1 : c.pc1 = 5) (hp2 : c.pc2 = 5) :
    c.fA = c.fB ∧ pyLen d0 ≤ pyLen c.fA := by
  obtain ⟨hN, hF, hT⟩ := inv_reach u1 u2 h1 h2 d0 c hr
  cases hlock : c.lock with
  | none => exact ⟨(hN hlock).1, (hN hlock).2.1⟩
  | some b =>
      cases b with
      | false =>
          rcases (hF hlock).1.2 with ⟨hc, _⟩ | ⟨hc, _⟩ | ⟨hc, _⟩ | ⟨hc, _⟩ <;> omega
      | true =>
          rcases (hT hlock).1.2 with ⟨hc, _⟩ | ⟨hc, _⟩ | ⟨hc, _⟩ | ⟨hc, _⟩ <;> omega

/-! ## Shared helper lemmas -/

theorem dictGet_dictSet_ne (d : PyVal) (k e : String) (v : PyVal)
    (hne : k ≠ e) : dictGet (dictSet d k v) e = dictGet d e := by
  induction d with
  | dnil => simp [dictSet, dictGet, hne]
  | dcons k0 v0 t _ iht =>
      by_cases hk : k0 = k
      · subst hk
        simp [dictSet, dictGet, hne]
      · simp only [dictSet, if_neg hk]
        by_cases he : k0 = e
        · simp [dictGet, he]
        · simp [dictGet, he, iht]
  | _ => rfl

theorem sq_resolve_allNone (tries : Nat → Option HState)
    (h : ∀ n, tries n = Option.none) :
    sq_resolve tries = (Option.none, 3, [250, 500]) := by
  simp [sq_resolve, stOk, h]

/-! ## Claims -/

/-- **C1** (counterexample): the claim says *every* invocation of the scene
update persist step writes to a temporary file and atomically renames it,
and that on any failure after temp creation the document remains at its
pre-call content. scene_capture's persist step (lines 94-106) refutes both
parts at this concrete input: it uses no temporary file at all, and a
failure partway through its direct `"w"`-mode write leaves the document
truncated rather than at its pre-call content. -/
theorem C1_counterexample :
    (sc_persist (ofList []) ⟨some (FileData.whole (ofList [PyVal.dnil])), Option.none⟩
        ScFail.writeFail).usedTemp = false ∧
    (sc_persist (ofList []) ⟨some (FileData.whole (ofList [PyVal.dnil])), Option.none⟩
        ScFail.writeFail).fs.target ≠ some (FileData.whole (ofList [PyVal.dnil])) := by
  decide

/-- **C1** (amended): in the smartqasa integration the persist step writes
the serialized sequence to a temporary file in the target's directory and
atomically renames it over the target; on a failure after the temporary
file is created and up to the rename, the temporary file is deleted and
the document keeps its pre-call content. (scene_capture's persist step
writes the target directly, with no temporary file — see the
counterexample; and a failure of the post-rename reload leaves the
document at the newly committed content, not the pre-call one.) -/
theorem C1_sq_atomic_persist :
    ∀ (doc : PyVal) (fs0 : Fs),
      ((sq_persist doc fs0 SqFail.tempWriteFail).fs.target = fs0.target ∧
       (sq_persist doc fs0 SqFail.tempWriteFail).fs.temp = Option.none ∧
       (sq_persist doc fs0 SqFail.tempWriteFail).usedTemp = true) ∧
      ((sq_persist doc fs0 SqFail.renameFail).fs.target = fs0.target ∧
       (sq_persist doc fs0 SqFail.renameFail).fs.temp = Option.none ∧
       (sq_persist doc fs0 SqFail.renameFail).usedTemp = true) ∧
      ((sq_persist doc fs0 SqFail.dumpFail).fs = fs0 ∧
       (sq_persist doc fs0 SqFail.tempCreateFail).fs = fs0) ∧
      ((sq_persist doc fs0 SqFail.noFail).fs.target = some (FileData.whole doc) ∧
       (sq_persist doc fs0 SqFail.noFail).fs.temp = Option.none ∧
       (sq_persist doc fs0 SqFail.noFail).usedTemp = true) := by
  intro doc fs0
  exact ⟨⟨rfl, rfl, rfl⟩, ⟨rfl, rfl, rfl⟩, ⟨rfl, rfl⟩, ⟨rfl, rfl, rfl⟩⟩

/-- **C5** (code bug): an entity whose `hass.states.get` object exists on
every attempt but carries `state = None` exhausts the 3 attempts — the
loop even logs "did not load after 3 attempts, skipping." — yet is *not*
skipped: the post-loop `if state:` test is truthy for the object, so the
entity map entry is overwritten with `{"state": "None"}` instead of being
left unchanged, contradicting the claim (and the code's own log message).
The resolver itself does exhaust exactly 3 attempts with waits of 250 ms
then 500 ms, as the second conjunct records. -/
theorem C5_null_state_processed :
    sq_update_scene_states (PyVal.str "s1")
        (PyVal.dcons "id" (PyVal.str "s1")
          (PyVal.dcons "entities"
            (PyVal.dcons "light.x" (PyVal.dcons "state" (PyVal.str "off") PyVal.dnil)
              PyVal.dnil) PyVal.dnil))
        (fun _ _ => some ⟨PyVal.none, PyVal.dnil⟩)
        (some (ofList [PyVal.dcons "id" (PyVal.str "s1")
          (PyVal.dcons "entities"
            (PyVal.dcons "light.x" (PyVal.dcons "state" (PyVal.str "off") PyVal.dnil)
              PyVal.dnil) PyVal.dnil)])) =
      SqUpdRes.wrote (ofList [PyVal.dcons "id" (PyVal.str "s1")
        (PyVal.dcons "entities"
          (PyVal.dcons "light.x" (PyVal.dcons "state" (PyVal.str "None") PyVal.dnil)
            PyVal.dnil) PyVal.dnil)]) ∧
    sq_resolve (fun _ => some ⟨PyVal.none, PyVal.dnil⟩) =
      (some ⟨PyVal.none, PyVal.dnil⟩, 3, [250, 500]) := by
  exact ⟨rfl, rfl⟩

/-- **C6** (counterexample): the claim says the serializer returns the
*string form* of an enum's underlying scalar. smartqasa's
`make_serializable` returns the underlying value itself (`data.value`,
line 76), so an enum whose value is the integer `3` serializes to the
integer `3`, not the string `"3"`. -/
theorem C6_counterexample :
    make_serializable (PyVal.enumv (PyVal.int 3)) ≠ PyVal.str "3" := by
  decide

/-- **C6** (amended): scene_capture's `to_serializable` returns the string
form `str(data.value)` of an enum's underlying value; smartqasa's
`make_serializable` returns the underlying value itself, unchanged. For a
string-valued enum such as a color mode with value "brightness", both
therefore yield the string "brightness". -/
theorem C6_enum_serialization :
    (∀ v : PyVal, to_serializable (PyVal.enumv v) = PyVal.str (pyStr v)) ∧
    (∀ v : PyVal, make_serializable (PyVal.enumv v) = v) ∧
    to_serializable (PyVal.enumv (PyVal.str "brightness")) = PyVal.str "brightness" ∧
    make_serializable (PyVal.enumv (PyVal.str "brightness")) = PyVal.str "brightness" := by
  exact ⟨fun v => rfl, fun v => rfl, rfl, rfl⟩

/-- **C7** (confirmed): both serializers are total Lean functions — every
input returns a value and no error/exception constructor exists in their
codomain — with None, booleans, numbers (ints and floats) and strings
returned unchanged and an unrecognized object type returned as its string
form. -/
theorem C7_serializer_total :
    (to_serializable PyVal.none = PyVal.none ∧
     make_serializable PyVal.none = PyVal.none) ∧
    (∀ b, to_serializable (PyVal.bool b) = PyVal.bool b ∧
      make_serializable (PyVal.bool b) = PyVal.bool b) ∧
    (∀ n : Int, to_serializable (PyVal.int n) = PyVal.int n ∧
      make_serializable (PyVal.int n) = PyVal.int n) ∧
    (∀ q : Rat, to_serializable (PyVal.flt q) = PyVal.flt q ∧
      make_serializable (PyVal.flt q) = PyVal.flt q) ∧
    (∀ s, to_serializable (PyVal.str s) = PyVal.str s ∧
      make_serializable (PyVal.str s) = PyVal.str s) ∧
    (∀ s, to_serializable (PyVal.obj s) = PyVal.str (pyStr (PyVal.obj s)) ∧
      make_serializable (PyVal.obj s) = PyVal.str (pyStr (PyVal.obj s))) := by
  exact ⟨⟨rfl, rfl⟩, fun b => ⟨rfl, rfl⟩, fun n => ⟨rfl, rfl⟩, fun q => ⟨rfl, rfl⟩,
    fun s => ⟨rfl, rfl⟩, fun s => ⟨rfl, rfl⟩⟩

theorem sc_scan_notFound (sid : PyVal) (states : String → Option HState) :
    ∀ rs : List PyVal,
      (∀ r ∈ rs, isDict r = true ∧ (dictGet r "id").getD PyVal.none ≠ sid) →
      sc_scan sid states rs = ScanRes.notFound := by
  intro rs
  induction rs with
  | nil => intro _; rfl
  | cons r rest ih =>
      intro h
      have hr := h r (by simp)
      simp only [sc_scan]
      rw [if_pos hr.1, if_neg hr.2, ih (fun p hp => h p (by simp [hp]))]

theorem sq_findScene_noScene (sid : PyVal) :
    ∀ rs : List PyVal,
      (∀ r ∈ rs, isDict r = true ∧ (dictGet r "id").getD PyVal.none ≠ sid) →
      sq_findScene sid rs = RetRes.noScene sid := by
  intro rs
  induction rs with
  | nil => intro _; rfl
  | cons r rest ih =>
      intro h
      have hr := h r (by simp)
      simp only [sq_findScene]
      rw [if_pos hr.1, if_neg hr.2, ih (fun p hp => h p (by simp [hp]))]

theorem sq_retrieve_noScene (entity_id : String) (st : HState) (sid : PyVal)
    (rs : List PyVal) (hs : strStartsWith entity_id "scene." = true)
    (hid : dictGet st.attributes "id" = some sid)
    (h : ∀ r ∈ rs, isDict r = true ∧ (dictGet r "id").getD PyVal.none ≠ sid) :
    sq_retrieve_scene entity_id (some st) (some (ofList rs)) =
      RetRes.noScene sid := by
  unfold sq_retrieve_scene
  rw [if_neg (by simp [hs])]
  simp only [hid, asList_ofList]
  exact sq_findScene_noScene sid rs h

/-- **C3** (confirmed): when no record of the document matches the scene
id, neither integration writes: scene_capture's handler returns through
the "Scene ... not found in scenes.yaml" error (no write path reached),
and smartqasa's `handle_scene_update` aborts after `retrieve_scene`
returns no target scene, never calling `update_scene_states`. The
document is therefore left byte-for-byte unchanged and failure is
reported (via the error logs the outcome constructors stand for). -/
theorem C3_not_found_no_write :
    (∀ (sid : PyVal) (states : String → Option HState) (rs : List PyVal),
      (∀ r ∈ rs, isDict r = true ∧ (dictGet r "id").getD PyVal.none ≠ sid) →
      sc_handle_update sid states (ofList rs) = ScResult.notFound) ∧
    (∀ (entity_id : String) (st : HState) (sid : PyVal) (rs : List PyVal)
        (states : String → Nat → Option HState) (doc2 : Option PyVal),
      strStartsWith entity_id "scene." = true →
      dictGet st.attributes "id" = some sid →
      (∀ r ∈ rs, isDict r = true ∧ (dictGet r "id").getD PyVal.none ≠ sid) →
      sq_handle_scene_update entity_id (some st) (some (ofList rs)) states doc2 =
        SqHandleRes.noWrite) := by
  constructor
  · intro sid states rs h
    simp only [sc_handle_update, asList_ofList]
    rw [sc_scan_notFound sid states rs h]
  · intro entity_id st sid rs states doc2 hs hid h
    simp only [sq_handle_scene_update, sq_retrieve_noScene entity_id st sid rs hs hid h]

/-- **C3** witness. -/
theorem C3_witness :
    sc_handle_update (PyVal.str "s1") (fun _ => Option.none)
        (ofList [PyVal.dcons "id" (PyVal.str "other") PyVal.dnil]) =
      ScResult.notFound ∧
    sq_handle_scene_update "scene.x"
        (some ⟨PyVal.str "on", PyVal.dcons "id" (PyVal.str "s1") PyVal.dnil⟩)
        (some (ofList [PyVal.dcons "id" (PyVal.str "other") PyVal.dnil]))
        (fun _ _ => Option.none) (some PyVal.lnil) = SqHandleRes.noWrite := by
  exact ⟨C3_not_found_no_write.1 (PyVal.str "s1") (fun _ => Option.none)
      [PyVal.dcons "id" (PyVal.str "other") PyVal.dnil] (by decide),
    C3_not_found_no_write.2 "scene.x"
      ⟨PyVal.str "on", PyVal.dcons "id" (PyVal.str "s1") PyVal.dnil⟩
      (PyVal.str "s1") [PyVal.dcons "id" (PyVal.str "other") PyVal.dnil]
      (fun _ _ => Option.none) (some PyVal.lnil) (by decide) (by decide) (by decide)⟩

/-- **C4** (counterexample): the claim says *every* record lacking the
required fields makes the scene update operation abort before any
mutation and leave the document untouched. scene_capture refutes this: a
matched record lacking the `entities` field is not rejected —
`target_scene.get("entities", {})` defaults to `{}`, the update proceeds,
and the written document differs from the original (an `entities` key was
added). -/
theorem C4_counterexample :
    sc_handle_update (PyVal.str "abc") (fun _ => Option.none)
        (ofList [PyVal.dcons "id" (PyVal.str "abc") PyVal.dnil]) =
      ScResult.wrote (ofList [PyVal.dcons "id" (PyVal.str "abc")
        (PyVal.dcons "entities" PyVal.dnil PyVal.dnil)]) ∧
    ofList [PyVal.dcons "id" (PyVal.str "abc")
        (PyVal.dcons "entities" PyVal.dnil PyVal.dnil)] ≠
      ofList [PyVal.dcons "id" (PyVal.str "abc") PyVal.dnil] := by
  decide

/-- **C4** (amended): smartqasa's `update_scene_states` aborts before any
mutation — reporting the error through a log, raising nothing to the
caller (every exception of the phase is caught; `SqUpdRes` has no
exception constructor) — whenever the parsed document is not a sequence
or some record lacks the required `id`/`entities` fields. scene_capture
aborts only on a non-sequence document; a record lacking required fields
is not validated there (see the counterexample). -/
theorem C4_malformed_abort :
    (∀ (sid target : PyVal) (states : String → Nat → Option HState) (v : PyVal),
      asList v = Option.none ∨
        (∃ rs, asList v = some rs ∧ rs.all sqRecordOk = false) →
      sq_update_scene_states sid target states (some v) = SqUpdRes.loadFail) ∧
    (∀ (sid : PyVal) (states : String → Option HState) (v : PyVal),
      asList v = Option.none → sc_handle_update sid states v = ScResult.notAList) := by
  constructor
  · rintro sid target states v (h | ⟨rs, hrs, hall⟩)
    · simp [sq_update_scene_states, h]
    · simp [sq_update_scene_states, hrs, hall]
  · intro sid states v h
    simp [sc_handle_update, h]

/-- **C4** witness. -/
theorem C4_witness :
    sq_update_scene_states (PyVal.str "s") PyVal.dnil (fun _ _ => Option.none)
        (some (PyVal.int 3)) = SqUpdRes.loadFail ∧
    sc_handle_update (PyVal.str "s") (fun _ => Option.none) (PyVal.int 3) =
      ScResult.notAList := by
  exact ⟨C4_malformed_abort.1 (PyVal.str "s") PyVal.dnil (fun _ _ => Option.none)
      (PyVal.int 3) (Or.inl (by decide)),
    C4_malformed_abort.2 (PyVal.str "s") (fun _ => Option.none) (PyVal.int 3)
      (by decide)⟩

theorem sc_updatedEntities_unresolved (states : String → Option HState)
    (e : String) (he : states e = Option.none) :
    ∀ keys : List String,
      dictGet (sc_updatedEntities states keys) e = Option.none := by
  intro keys
  induction keys with
  | nil => rfl
  | cons e' rest ih =>
      cases hs : states e' with
      | none => simp only [sc_updatedEntities, hs]; exact ih
      | some st =>
          have hee : e' ≠ e := fun hh => by
            subst hh; rw [he] at hs; exact Option.noConfusion hs
          simp only [sc_updatedEntities, hs, dictGet]
          rw [if_neg hee]
          exact ih

theorem sq_entityFold_unresolved (states : String → Nat → Option HState)
    (e : String) (he : ∀ n, states e n = Option.none) :
    ∀ (keys : List String) (acc : PyVal),
      dictGet (sq_entityFold states keys acc) e = dictGet acc e := by
  intro keys
  induction keys with
  | nil => intro acc; rfl
  | cons e' rest ih =>
      intro acc
      by_cases hee : e' = e
      · subst hee
        have hres : (sq_resolve (states e')).1 = Option.none := by
          rw [sq_resolve_allNone (states e') he]
        simp only [sq_entityFold, hres]
        exact ih acc
      · cases hr : (sq_resolve (states e')).1 with
        | none => simp only [sq_entityFold, hr]; exact ih acc
        | some st =>
            simp only [sq_entityFold, hr]
            rw [ih (dictSet acc e' (sq_attrs st)),
              dictGet_dictSet_ne acc e' e (sq_attrs st) hee]

/-- **C8** (confirmed): the two integrations really do differ on
never-resolved entities. scene_capture builds the replacement map from
scratch, so an entity absent from the states snapshot has no key in the
new map; smartqasa starts from a copy of the existing map and only
overwrites entities whose resolver returned an object, so an entity whose
every `hass.states.get` attempt returns nothing keeps its previous
value. -/
theorem C8_policy_difference :
    (∀ (states : String → Option HState) (keys : List String) (e : String),
      states e = Option.none →
      dictGet (sc_updatedEntities states keys) e = Option.none) ∧
    (∀ (states : String → Nat → Option HState) (keys : List String)
        (acc : PyVal) (e : String),
      (∀ n, states e n = Option.none) →
      dictGet (sq_entityFold states keys acc) e = dictGet acc e) := by
  exact ⟨fun states keys e he => sc_updatedEntities_unresolved states e he keys,
    fun states keys acc e he => sq_entityFold_unresolved states e he keys acc⟩

/-- **C8** witness. -/
theorem C8_witness :
    dictGet (sc_updatedEntities (fun _ => Option.none) ["light.a"]) "light.a" =
      Option.none ∧
    dictGet (sq_entityFold (fun _ _ => Option.none) ["light.a"]
        (PyVal.dcons "light.a" (PyVal.dcons "state" (PyVal.str "off") PyVal.dnil)
          PyVal.dnil)) "light.a" =
      dictGet (PyVal.dcons "light.a" (PyVal.dcons "state" (PyVal.str "off") PyVal.dnil)
          PyVal.dnil) "light.a" := by
  exact ⟨C8_policy_difference.1 (fun _ => Option.none) ["light.a"] "light.a" rfl,
    C8_policy_difference.2 (fun _ _ => Option.none) ["light.a"]
      (PyVal.dcons "light.a" (PyVal.dcons "state" (PyVal.str "off") PyVal.dnil)
        PyVal.dnil) "light.a" (fun _ => rfl)⟩

theorem sc_scan_found (sid : PyVal) (states : String → Option HState) :
    ∀ (pre : List PyVal) (r : PyVal) (post : List PyVal),
      (∀ p ∈ pre, isDict p = true ∧ (dictGet p "id").getD PyVal.none ≠ sid) →
      isDict r = true → (dictGet r "id").getD PyVal.none = sid →
      sc_scan sid states (pre ++ r :: post) =
        ScanRes.wrote (pre ++ sc_mutate states r :: post) := by
  intro pre
  induction pre with
  | nil =>
      intro r post _ hd hid
      simp only [List.nil_append, sc_scan]
      rw [if_pos hd, if_pos hid]
  | cons p pre' ih =>
      intro r post h hd hid
      have hp := h p (by simp)
      simp only [List.cons_append, sc_scan, List.append_eq]
      rw [if_pos hp.1, if_neg hp.2,
        ih r post (fun q hq => h q (by simp [hq])) hd hid]

theorem sq_replaceFirst_found (sid newRec : PyVal) :
    ∀ (pre : List PyVal) (target : PyVal) (post : List PyVal),
      (∀ p ∈ pre, (dictGet p "id").getD PyVal.none ≠ sid) →
      (dictGet target "id").getD PyVal.none = sid →
      sq_replaceFirst sid newRec (pre ++ target :: post) =
        pre ++ newRec :: post := by
  intro pre
  induction pre with
  | nil =>
      intro t post _ hid
      simp only [List.nil_append, sq_replaceFirst]
      rw [if_pos hid]
  | cons p pre' ih =>
      intro t post h hid
      simp only [List.cons_append, sq_replaceFirst, List.append_eq]
      rw [if_neg (h p (by simp)), ih t post (fun q hq => h q (by simp [hq])) hid]

/-- **C9** (confirmed): a successful update touches only the matched
record's `entities` field. In both integrations, all records before and
after the matched one are written back exactly as read, and every field of
the matched record other than `entities` keeps its value. -/
theorem C9_frame_effect :
    (∀ (sid : PyVal) (states : String → Option HState) (pre post : List PyVal)
        (r : PyVal),
      (∀ p ∈ pre, isDict p = true ∧ (dictGet p "id").getD PyVal.none ≠ sid) →
      isDict r = true → (dictGet r "id").getD PyVal.none = sid →
      sc_handle_update sid states (ofList (pre ++ r :: post)) =
        ScResult.wrote (ofList (pre ++ sc_mutate states r :: post)) ∧
      (∀ k, k ≠ "entities" → dictGet (sc_mutate states r) k = dictGet r k)) ∧
    (∀ (sid target : PyVal) (states : String → Nat → Option HState)
        (pre post : List PyVal),
      ((pre ++ target :: post).all sqRecordOk) = true →
      (∀ p ∈ pre, (dictGet p "id").getD PyVal.none ≠ sid) →
      (dictGet target "id").getD PyVal.none = sid →
      ∃ updated,
        sq_update_scene_states sid target states
            (some (ofList (pre ++ target :: post))) =
          SqUpdRes.wrote (ofList (pre ++ dictSet target "entities" updated :: post)) ∧
        (∀ k, k ≠ "entities" →
          dictGet (dictSet target "entities" updated) k = dictGet target k)) := by
  constructor
  · intro sid states pre post r h hd hid
    constructor
    · simp only [sc_handle_update, asList_ofList]
      rw [sc_scan_found sid states pre r post h hd hid]
    · intro k hk
      exact dictGet_dictSet_ne r "entities" k
        (sc_updatedEntities states (dKeys ((dictGet r "entities").getD PyVal.dnil)))
        (Ne.symm hk)
  · intro sid target states pre post hall hpre hid
    refine ⟨sq_entityFold states (dKeys ((dictGet target "entities").getD PyVal.dnil))
      ((dictGet target "entities").getD PyVal.dnil), ?_, ?_⟩
    · simp only [sq_update_scene_states, asList_ofList]
      rw [if_pos hall]
      simp only [sq_updateCore]
      rw [sq_replaceFirst_found sid _ pre target post hpre hid]
    · intro k hk
      exact dictGet_dictSet_ne target "entities" k _ (Ne.symm hk)

/-- **C9** witness. -/
theorem C9_witness :
    (sc_handle_update (PyVal.str "s2") (fun _ => Option.none)
        (ofList [PyVal.dcons "id" (PyVal.str "s1") PyVal.dnil,
          PyVal.dcons "id" (PyVal.str "s2")
            (PyVal.dcons "entities" PyVal.dnil
              (PyVal.dcons "name" (PyVal.str "Den") PyVal.dnil))]) =
      ScResult.wrote (ofList [PyVal.dcons "id" (PyVal.str "s1") PyVal.dnil,
        sc_mutate (fun _ => Option.none)
          (PyVal.dcons "id" (PyVal.str "s2")
            (PyVal.dcons "entities" PyVal.dnil
              (PyVal.dcons "name" (PyVal.str "Den") PyVal.dnil)))]) ∧
     dictGet (sc_mutate (fun _ => Option.none)
        (PyVal.dcons "id" (PyVal.str "s2")
          (PyVal.dcons "entities" PyVal.dnil
            (PyVal.dcons "name" (PyVal.str "Den") PyVal.dnil)))) "name" =
      dictGet (PyVal.dcons "id" (PyVal.str "s2")
          (PyVal.dcons "entities" PyVal.dnil
            (PyVal.dcons "name" (PyVal.str "Den") PyVal.dnil))) "name") ∧
    ∃ updated,
      sq_update_scene_states (PyVal.str "s1")
          (PyVal.dcons "id" (PyVal.str "s1")
            (PyVal.dcons "entities" PyVal.dnil PyVal.dnil))
          (fun _ _ => Option.none)
          (some (ofList [PyVal.dcons "id" (PyVal.str "s1")
            (PyVal.dcons "entities" PyVal.dnil PyVal.dnil)])) =
        SqUpdRes.wrote (ofList [dictSet (PyVal.dcons "id" (PyVal.str "s1")
          (PyVal.dcons "entities" PyVal.dnil PyVal.dnil)) "entities" updated]) ∧
      (∀ k, k ≠ "entities" →
        dictGet (dictSet (PyVal.dcons "id" (PyVal.str "s1")
            (PyVal.dcons "entities" PyVal.dnil PyVal.dnil)) "entities" updated) k =
          dictGet (PyVal.dcons "id" (PyVal.str "s1")
            (PyVal.dcons "entities" PyVal.dnil PyVal.dnil)) k) := by
  constructor
  · have h := C9_frame_effect.1 (PyVal.str "s2") (fun _ => Option.none)
      [PyVal.dcons "id" (PyVal.str "s1") PyVal.dnil] []
      (PyVal.dcons "id" (PyVal.str "s2")
        (PyVal.dcons "entities" PyVal.dnil
          (PyVal.dcons "name" (PyVal.str "Den") PyVal.dnil)))
      (by decide) (by decide) (by decide)
    exact ⟨h.1, h.2 "name" (by decide)⟩
  · exact C9_frame_effect.2 (PyVal.str "s1")
      (PyVal.dcons "id" (PyVal.str "s1") (PyVal.dcons "entities" PyVal.dnil PyVal.dnil))
      (fun _ _ => Option.none) [] [] (by decide) (by simp) (by decide)

/-- **C10** (confirmed): `handle_scene_get` answers a successful retrieve
with the mapping `{"entities": [...]}` listing the entity ids recorded for
the scene, and a failed retrieve with a collection carrying the informal
string "Scene not found for entity ..." (a Python set literal holding that
message). -/
theorem C10_scene_get_response :
    ∀ (entity_id : String) (hassState : Option HState) (doc : Option PyVal)
      (sid target : PyVal),
      (sq_retrieve_scene entity_id hassState doc = RetRes.found sid target →
        sq_handle_scene_get entity_id hassState doc =
          GetRes.respEntities (dKeys ((dictGet target "entities").getD PyVal.dnil))) ∧
      (sq_retrieve_scene entity_id hassState doc = RetRes.noScene sid →
        sq_handle_scene_get entity_id hassState doc =
          GetRes.respSet ("Scene not found for entity " ++ entity_id)) := by
  intro entity_id hassState doc sid target
  constructor
  · intro h
    simp only [sq_handle_scene_get, h]
  · intro h
    simp only [sq_handle_scene_get, h]

/-- **C10** witness. -/
theorem C10_witness :
    sq_handle_scene_get "scene.x"
        (some ⟨PyVal.str "on", PyVal.dcons "id" (PyVal.str "s1") PyVal.dnil⟩)
        (some (ofList [PyVal.dcons "id" (PyVal.str "s1")
          (PyVal.dcons "entities" (PyVal.dcons "light.a" PyVal.dnil
            (PyVal.dcons "light.b" PyVal.dnil PyVal.dnil)) PyVal.dnil)])) =
      GetRes.respEntities ["light.a", "light.b"] ∧
    sq_handle_scene_get "scene.x"
        (some ⟨PyVal.str "on", PyVal.dcons "id" (PyVal.str "zz") PyVal.dnil⟩)
        (some PyVal.lnil) =
      GetRes.respSet ("Scene not found for entity " ++ "scene.x") := by
  exact ⟨(C10_scene_get_response "scene.x"
      (some ⟨PyVal.str "on", PyVal.dcons "id" (PyVal.str "s1") PyVal.dnil⟩)
      (some (ofList [PyVal.dcons "id" (PyVal.str "s1")
        (PyVal.dcons "entities" (PyVal.dcons "light.a" PyVal.dnil
          (PyVal.dcons "light.b" PyVal.dnil PyVal.dnil)) PyVal.dnil)]))
      (PyVal.str "s1")
      (PyVal.dcons "id" (PyVal.str "s1")
        (PyVal.dcons "entities" (PyVal.dcons "light.a" PyVal.dnil
          (PyVal.dcons "light.b" PyVal.dnil PyVal.dnil)) PyVal.dnil))).1 (by decide),
    (C10_scene_get_response "scene.x"
      (some ⟨PyVal.str "on", PyVal.dcons "id" (PyVal.str "zz") PyVal.dnil⟩)
      (some PyVal.lnil) (PyVal.str "zz") PyVal.none).2 (by decide)⟩

/-- **C2** (confirmed): concurrent invocations of the scene update
operation — two smartqasa `update_scene_states` calls serialized by
`CAPTURE_LOCK`, or two scene_capture `handle_update` calls serialized by
the integration's lock — never interleave partial document state: in every
lock-respecting interleaving that runs both writers to completion, the
final file is syntactically valid (both write halves come from one
serialized document) and holds no fewer records than the initial
document. -/
theorem C2_serialized_updates :
    (∀ (sid1 t1 : PyVal) (st1 : String → Nat → Option HState)
        (sid2 t2 : PyVal) (st2 : String → Nat → Option HState)
        (d0 : PyVal) (c : Conf),
      Reach (sqDocUpd sid1 t1 st1) (sqDocUpd sid2 t2 st2) (init d0) c →
      c.pc1 = 5 → c.pc2 = 5 →
      c.fA = c.fB ∧ pyLen d0 ≤ pyLen c.fA) ∧
    (∀ (sid1 : PyVal) (st1 : String → Option HState)
        (sid2 : PyVal) (st2 : String → Option HState)
        (d0 : PyVal) (c : Conf),
      Reach (scDocUpd sid1 st1) (scDocUpd sid2 st2) (init d0) c →
      c.pc1 = 5 → c.pc2 = 5 →
      c.fA = c.fB ∧ pyLen d0 ≤ pyLen c.fA) := by
  constructor
  · intro sid1 t1 st1 sid2 t2 st2 d0 c hr h1 h2
    exact serialized_run _ _ (sqDocUpd_lenPres sid1 t1 st1)
      (sqDocUpd_lenPres sid2 t2 st2) d0 c hr h1 h2
  · intro sid1 st1 sid2 st2 d0 c hr h1 h2
    exact serialized_run _ _ (scDocUpd_lenPres sid1 st1)
      (scDocUpd_lenPres sid2 st2) d0 c hr h1 h2

/-- **C2** witness: a concrete complete interleaving for each pair of
writers over the empty document — the smartqasa pair performs two full
writes, the scene_capture pair two no-write (scene not found) passes. -/
theorem C2_witness :
    ((⟨Option.none, PyVal.lnil, PyVal.lnil, 5, some PyVal.lnil, 5,
        some PyVal.lnil⟩ : Conf).fA =
      (⟨Option.none, PyVal.lnil, PyVal.lnil, 5, some PyVal.lnil, 5,
        some PyVal.lnil⟩ : Conf).fB ∧
     pyLen PyVal.lnil ≤ pyLen (⟨Option.none, PyVal.lnil, PyVal.lnil, 5,
        some PyVal.lnil, 5, some PyVal.lnil⟩ : Conf).fA) ∧
    ((⟨Option.none, PyVal.lnil, PyVal.lnil, 5, Option.none, 5,
        Option.none⟩ : Conf).fA =
      (⟨Option.none, PyVal.lnil, PyVal.lnil, 5, Option.none, 5,
        Option.none⟩ : Conf).fB ∧
     pyLen PyVal.lnil ≤ pyLen (⟨Option.none, PyVal.lnil, PyVal.lnil, 5,
        Option.none, 5, Option.none⟩ : Conf).fA) := by
  constructor
  · refine C2_serialized_updates.1 (PyVal.str "a") PyVal.dnil
      (fun _ _ => Option.none) (PyVal.str "a") PyVal.dnil
      (fun _ _ => Option.none) PyVal.lnil _ ?_ rfl rfl
    have s0 : Reach (sqDocUpd (PyVal.str "a") PyVal.dnil (fun _ _ => Option.none))
        (sqDocUpd (PyVal.str "a") PyVal.dnil (fun _ _ => Option.none))
        (init PyVal.lnil) (init PyVal.lnil) := Relation.ReflTransGen.refl
    have s1 := Relation.ReflTransGen.tail s0 (Step.acquire1 _ rfl rfl)
    have s2 := Relation.ReflTransGen.tail s1 (Step.read1 _ rfl rfl rfl)
    have s3 := Relation.ReflTransGen.tail s2 (Step.wstart1 _ PyVal.lnil rfl rfl rfl)
    have s4 := Relation.ReflTransGen.tail s3 (Step.wfin1 _ PyVal.lnil rfl rfl rfl)
    have s5 := Relation.ReflTransGen.tail s4 (Step.release1 _ rfl rfl)
    have s6 := Relation.ReflTransGen.tail s5 (Step.acquire2 _ rfl rfl)
    have s7 := Relation.ReflTransGen.tail s6 (Step.read2 _ rfl rfl rfl)
    have s8 := Relation.ReflTransGen.tail s7 (Step.wstart2 _ PyVal.lnil rfl rfl rfl)
    have s9 := Relation.ReflTransGen.tail s8 (Step.wfin2 _ PyVal.lnil rfl rfl rfl)
    exact Relation.ReflTransGen.tail s9 (Step.release2 _ rfl rfl)
  · refine C2_serialized_updates.2 (PyVal.str "a") (fun _ => Option.none)
      (PyVal.str "a") (fun _ => Option.none) PyVal.lnil _ ?_ rfl rfl
    have t0 : Reach (scDocUpd (PyVal.str "a") (fun _ => Option.none))
        (scDocUpd (PyVal.str "a") (fun _ => Option.none))
        (init PyVal.lnil) (init PyVal.lnil) := Relation.ReflTransGen.refl
    have t1 := Relation.ReflTransGen.tail t0 (Step.acquire1 _ rfl rfl)
    have t2 := Relation.ReflTransGen.tail t1 (Step.read1 _ rfl rfl rfl)
    have t3 := Relation.ReflTransGen.tail t2 (Step.skip1 _ rfl rfl rfl)
    have t4 := Relation.ReflTransGen.tail t3 (Step.release1 _ rfl rfl)
    have t5 := Relation.ReflTransGen.tail t4 (Step.acquire2 _ rfl rfl)
    have t6 := Relation.ReflTransGen.tail t5 (Step.read2 _ rfl rfl rfl)
    have t7 := Relation.ReflTransGen.tail t6 (Step.skip2 _ rfl rfl rfl)
    exact Relation.ReflTransGen.tail t7 (Step.release2 _ rfl rfl)

end SceneCapture
